import Mathlib

/-!
Shallow embedding of the RSI mean-reversion trading bot
(`src/trading_engine.py`, `src/main.py`, `src/strategy.py`, `src/risk.py`,
`src/config.py`) and proofs about the claims of its specification.

Prices and notionals are modelled as rationals.  Where the Python code can
produce non-finite floats (the unguarded division `gain_sma / loss_sma` in
`trading_engine.rsi`), values are modelled by `FVal`, a rational extended
with the IEEE specials `+inf`, `-inf` and `nan`, with the IEEE rules for
the operations the source performs on them.  Timestamps are modelled as
day indices (`Nat`), since the source only compares bar timestamps against
the current UTC day at day resolution.
-/

/-- Configuration constants from `trading_engine.py` / `config.py`. -/
def RSI_PERIOD : Nat := 14

def RSI_LOW : ℚ := 30

def RSI_HIGH : ℚ := 70

def TRADE_NOTIONAL_USD : ℚ := 100

def MAX_TRADE_USD : ℚ := 2000

def STOP_LOSS_PCT : ℚ := 3 / 100

def TAKE_PROFIT_PCT : ℚ := 6 / 100

/-- A float value as the source's numpy/pandas pipeline can produce it:
a finite rational, `+inf`, `-inf`, or `nan`. -/
inductive FVal where
  | num (q : ℚ)
  | pinf
  | ninf
  | nan
deriving DecidableEq

namespace FVal

/-- IEEE addition on `FVal`. -/
def add : FVal → FVal → FVal
  | num a, num b => num (a + b)
  | num _, pinf => pinf
  | pinf, num _ => pinf
  | num _, ninf => ninf
  | ninf, num _ => ninf
  | pinf, pinf => pinf
  | ninf, ninf => ninf
  | pinf, ninf => nan
  | ninf, pinf => nan
  | nan, _ => nan
  | _, nan => nan

/-- IEEE subtraction on `FVal`. -/
def sub : FVal → FVal → FVal
  | num a, num b => num (a - b)
  | num _, pinf => ninf
  | num _, ninf => pinf
  | pinf, num _ => pinf
  | ninf, num _ => ninf
  | pinf, ninf => pinf
  | ninf, pinf => ninf
  | pinf, pinf => nan
  | ninf, ninf => nan
  | nan, _ => nan
  | _, nan => nan

/-- IEEE division on `FVal`; a finite value divided by (positive) zero is a
signed infinity and `0 / 0` is `nan`, exactly as numpy float division behaves
in `rs = gain_sma / loss_sma`. -/
def div : FVal → FVal → FVal
  | num a, num b =>
      if b = 0 then (if a = 0 then nan else if 0 < a then pinf else ninf)
      else num (a / b)
  | num _, pinf => num 0
  | num _, ninf => num 0
  | pinf, num b => if 0 ≤ b then pinf else ninf
  | ninf, num b => if 0 ≤ b then ninf else pinf
  | pinf, pinf => nan
  | pinf, ninf => nan
  | ninf, pinf => nan
  | ninf, ninf => nan
  | nan, _ => nan
  | _, nan => nan

/-- IEEE comparison `v <= q` against a finite threshold (false for `nan`). -/
def le : FVal → ℚ → Bool
  | num a, q => a ≤ q
  | pinf, _ => false
  | ninf, _ => true
  | nan, _ => false

/-- IEEE comparison `v >= q` against a finite threshold (false for `nan`). -/
def ge : FVal → ℚ → Bool
  | num a, q => q ≤ a
  | pinf, _ => true
  | ninf, _ => false
  | nan, _ => false

end FVal

/-- The consecutive close-to-close differences `series.diff()`, dropping the
leading `NaN` entry (that entry is irrelevant here: `np.where(delta > 0, ...)`
maps it to `0.0`, and the callers below only look at windows that never reach
position `0`). -/
def deltasOf (closes : List ℚ) : List ℚ :=
  List.zipWith (fun a b => a - b) closes.tail closes

/-- Sum of the gains `np.where(delta > 0, delta, 0.0)` over the last rolling
window of width `period`, i.e. the window that produces `rsi.iloc[-1]`. -/
def gainWindowSum (closes : List ℚ) (period : Nat) : ℚ :=
  let g := (deltasOf closes).map (fun d => max d 0)
  (g.drop (g.length - period)).sum

/-- Sum of the losses `np.where(delta < 0, -delta, 0.0)` over the last rolling
window of width `period`. -/
def lossWindowSum (closes : List ℚ) (period : Nat) : ℚ :=
  let l := (deltasOf closes).map (fun d => max (-d) 0)
  (l.drop (l.length - period)).sum

/-- The last entry of `trading_engine.rsi(series, period)`: both rolling means
(`min_periods=period`) are defined once the series has at least `period + 1`
closes, and the final formula `100.0 - (100.0 / (1.0 + gain_sma / loss_sma))`
is evaluated with IEEE semantics — the division is not guarded. -/
def lastRsiTE (closes : List ℚ) (period : Nat) : FVal :=
  let gain_sma : FVal := .num (gainWindowSum closes period / period)
  let loss_sma : FVal := .num (lossWindowSum closes period / period)
  FVal.sub (.num 100) (FVal.div (.num 100) (FVal.add (.num 1) (FVal.div gain_sma loss_sma)))

/-- Embeds `trading_engine.compute_rsi_on_df`: `None` when the frame is empty or has
fewer than `period + 1` rows, else the last value of the RSI column. -/
def compute_rsi_on_df (closes : List ℚ) (period : Nat) : Option FVal :=
  if closes.length < period + 1 then none
  else some (lastRsiTE closes period)

/-- One daily bar, reduced to the fields the trading logic reads: the
timestamp (as a UTC day index) and the close. -/
structure Bar where
  t : Nat
  c : ℚ
deriving DecidableEq

/-- Embeds `trading_engine.last_completed_daily_row`: the last row whose timestamp is
strictly before the current UTC day; if no row is completed, fall back to the
second-to-last row (when the frame has at least two rows). -/
def last_completed_daily_row (df : List Bar) (today : Nat) : Option Bar :=
  if df.isEmpty then none
  else
    let completed := df.filter (fun b => b.t < today)
    if completed.isEmpty then
      if 2 ≤ df.length then df.get? (df.length - 2) else none
    else completed.getLast?

/-- The four per-symbol actions of `trading_engine.decide_action`. -/
inductive TradeAction where
  | BUY
  | SELL
  | HOLD
  | SKIP
deriving DecidableEq

/-- Embeds `trading_engine.decide_action(last_close, last_rsi)`: SKIP when the RSI is
`None` or `NaN`, else BUY at `last_rsi <= RSI_LOW`, SELL at
`last_rsi >= RSI_HIGH`, otherwise HOLD.  `last_close` is accepted but unused,
as in the source. -/
def decide_action (last_close : ℚ) (last_rsi : Option FVal) : TradeAction :=
  match last_rsi with
  | none => .SKIP
  | some v =>
      if v = .nan then .SKIP
      else if v.le RSI_LOW then .BUY
      else if v.ge RSI_HIGH then .SELL
      else .HOLD

/-- Modelled from the spec (section 4.2), for comparison with `decide_action`:
"if `lastRsi` is unavailable → SKIP; else if `lastRsi <= lowerThreshold` → BUY;
else if `lastRsi >= upperThreshold` → SELL; else → HOLD", with the thresholds
as explicit inputs.  "Unavailable" covers the two unavailable shapes the code
can produce: a missing value (`None`) and `NaN`. -/
def classifySpec (lastRsi : Option FVal) (lower upper : ℚ) : TradeAction :=
  match lastRsi with
  | none => .SKIP
  | some v =>
      if v = .nan then .SKIP
      else if v.le lower then .BUY
      else if v.ge upper then .SELL
      else .HOLD

/-- Last value of a pandas `ewm(alpha=α, adjust=False).mean()` over a series
of finite values: the recursion starts at the first entry and folds
`y := (1 - α) * y + α * x`.  The empty case never arises in
`lastRsiStrategy` (it is guarded by a length check there) and is given the
default 0. -/
def ewmLast (α : ℚ) : List ℚ → ℚ
  | [] => 0
  | x :: xs => xs.foldl (fun y v => (1 - α) * y + α * v) x

/-- Embeds the last value of `strategy.rsi(series, n)`:
`up = delta.clip(lower=0).ewm(alpha=1/n, adjust=False).mean()`,
`down = (-delta.clip(upper=0)).ewm(alpha=1/n, adjust=False).mean()`,
`rs = up / (down + 1e-9)`, result `100 - (100 / (1 + rs))`.  On an empty
series `.iloc[-1]` raises an `IndexError` (`none`); on a one-close series the
only diff entry is NaN, clipping keeps it NaN and the ewm of an all-NaN
series is NaN, so the RSI is NaN.  With at least two closes pandas skips the
leading NaN diff entry and runs the ewm recursion over the clipped finite
deltas, and the `1e-9` epsilon keeps the denominator positive, so the result
is a finite number. -/
def lastRsiStrategy (closes : List ℚ) (n : Nat) : Option FVal :=
  if closes.isEmpty then none
  else if closes.length = 1 then some FVal.nan
  else
    let up := ewmLast (1 / n) ((deltasOf closes).map (fun d => max d 0))
    let down := ewmLast (1 / n) ((deltasOf closes).map (fun d => max (-d) 0))
    some (.num (100 - 100 / (1 + up / (down + 1 / 1000000000))))

/-- Embeds `strategy.generate_signal_from_df`: classify the last RSI value by
`if r <= config.BUY_RSI_MAX: BUY`, `if r >= config.EXIT_RSI_MIN: SELL`, else
HOLD — there is no rule for an unavailable RSI, and the NaN-aware float
comparisons make both threshold tests false for NaN.  The constants the
source reads (`config.RSI_LEN`, `config.BUY_RSI_MAX`, `config.EXIT_RSI_MIN`)
are absent from `src/config.py`, so they are taken as explicit parameters
here.  `none` models the `IndexError` on an empty frame, which `main.run`
filters out before calling. -/
def generate_signal_from_df (closes : List ℚ) (n : Nat) (buyRsiMax exitRsiMin : ℚ) :
    Option TradeAction :=
  match lastRsiStrategy closes n with
  | none => none
  | some r =>
      if r.le buyRsiMax then some .BUY
      else if r.ge exitRsiMin then some .SELL
      else some .HOLD

/-- The possible results of the broker call `client.get_open_position(symbol)`
as seen by `get_position_qty`: a held position with some quantity, the
well-defined no-open-position response (the SDK raises an exception for it),
or a transport/auth failure (also an exception). -/
inductive PosResult where
  | openPos (qty : ℤ)
  | noPosition
  | transportError
deriving DecidableEq

/-- Embeds `trading_engine.get_position_qty`: returns the position quantity, and its
bare `except Exception: return 0` maps every exception — the no-position
response and transport/auth errors alike — to `0`. -/
def get_position_qty (r : PosResult) : ℤ :=
  match r with
  | .openPos q => q
  | .noPosition => 0
  | .transportError => 0

/-- An order submitted to the broker: a notional market BUY or a fixed-quantity
market SELL. -/
inductive Order where
  | buyNotional (usd : ℚ)
  | sellQty (qty : ℤ)
deriving DecidableEq

/-- Embeds `trading_engine.place_buy_notional`. -/
def place_buy_notional (usd : ℚ) : Order :=
  .buyNotional usd

/-- Embeds `trading_engine.place_sell_all`: returns `None` without submitting when
`qty <= 0`, else submits a market sell of the whole quantity. -/
def place_sell_all (qty : ℤ) : Option Order :=
  if qty ≤ 0 then none else some (.sellQty qty)

/-- The order phase of one `trade_once` symbol iteration (lines 217-236):
`if action == "BUY" and pos_qty == 0` submit a notional buy,
`elif action == "SELL" and pos_qty > 0` submit `place_sell_all(pos_qty)`,
else do nothing.  The returned list holds the orders actually submitted. -/
def tradeOrderPhase (action : TradeAction) (posQty : ℤ) (notional : ℚ) : List Order :=
  if action = .BUY ∧ posQty = 0 then [place_buy_notional notional]
  else if action = .SELL ∧ 0 < posQty then (place_sell_all posQty).toList
  else []

/-- The BUY sizing of `main.run` (line 112):
`notional = min(float(api.get_account().cash) * 0.95, config.MAX_TRADE_USD)`.
The order is submitted only when `notional > 10`. -/
def sizedNotional (cash maxTradeUsd : ℚ) : ℚ :=
  min (cash * (95 / 100)) maxTradeUsd

/-- Embeds `risk.hit_stop_or_takeprofit`. -/
def hit_stop_or_takeprofit (entry_price last_price : ℚ) : Bool :=
  if entry_price ≤ 0 then false
  else if last_price ≤ entry_price * (1 - STOP_LOSS_PCT) then true
  else if last_price ≥ entry_price * (1 + TAKE_PROFIT_PCT) then true
  else false

/-- Per-symbol recoverable failures of the external calls inside the
`trade_once` loop body. -/
inductive Err where
  | dataUnavailable
  | transport
deriving DecidableEq

/-- The external world one symbol's `trade_once` iteration observes: the
outcome of `fetch_daily_bars` (which can raise) and of the
`get_open_position` call inside `get_position_qty`. -/
structure SymEnv where
  bars : Except Err (List Bar)
  posResult : PosResult

/-- What one symbol's iteration of the `trade_once` loop came to. -/
inductive CycleOutcome where
  | skippedNoBars
  | skippedNoCompleted
  | acted (action : TradeAction) (orders : List Order)
  | errorRecorded (e : Err)
deriving DecidableEq

/-- The body of the per-symbol `try:` block of `trade_once` (lines 203-236):
fetch bars, skip on an empty frame, select the last completed row, compute the
RSI on the *full* frame (`compute_rsi_on_df(df)`), decide the action, query
the position quantity and run the order phase.  An exception from the fetch
escapes as `Except.error`. -/
def symbolStep (e : SymEnv) (today : Nat) : Except Err CycleOutcome :=
  match e.bars with
  | .error err => .error err
  | .ok df =>
      if df.isEmpty then .ok .skippedNoBars
      else
        match last_completed_daily_row df today with
        | none => .ok .skippedNoCompleted
        | some last_row =>
            let last_rsi := compute_rsi_on_df (df.map Bar.c) RSI_PERIOD
            let action := decide_action last_row.c last_rsi
            let pos_qty := get_position_qty e.posResult
            .ok (.acted action (tradeOrderPhase action pos_qty TRADE_NOTIONAL_USD))

/-- One symbol's iteration including the surrounding `except Exception` handler
of `trade_once` (line 238), which records the error and lets the loop go on. -/
def runSymbol (e : SymEnv) (today : Nat) : CycleOutcome :=
  match symbolStep e today with
  | .ok r => r
  | .error err => .errorRecorded err

/-- The `for symbol in WATCHLIST` loop of `trade_once`: every symbol is
processed in order and contributes one outcome; no outcome aborts the rest of
the watchlist. -/
def trade_once_model (wl : List String) (env : String → SymEnv) (today : Nat) :
    List (String × CycleOutcome) :=
  match wl with
  | [] => []
  | s :: rest => (s, runSymbol (env s) today) :: trade_once_model rest env today

/-- The orders a recorded outcome submitted. -/
def ordersOf : CycleOutcome → List Order
  | .acted _ os => os
  | _ => []

/-- Builds a daily frame from a close series, one bar per consecutive day. -/
def mkBars (cs : List ℚ) : List Bar :=
  cs.enum.map (fun p => { t := p.1, c := p.2 })

/-- Sixteen daily bars for days 0..15: fourteen one-point losses from 100 down
to 86, then a spike to 200 on day 15 (the in-progress bar when today = 15). -/
def dfC1 : List Bar :=
  mkBars (((List.range 15).map (fun i => (100 : ℚ) - i)) ++ [200])

/-- Fifteen completed daily bars for days 0..14, closing 100 down to 86. -/
def c2Bars : List Bar :=
  mkBars ((List.range 15).map (fun i => (100 : ℚ) - i))

/-- An environment in which the bars fetch succeeds with `c2Bars` and the
broker reports no open position. -/
def envC2 : SymEnv :=
  { bars := Except.ok c2Bars, posResult := PosResult.noPosition }

/-- Fifteen strictly increasing closes 86..100 (all gains, zero losses). -/
def c8Closes : List ℚ :=
  (List.range 15).map (fun i => (86 : ℚ) + i)

/-- Fifteen completed daily bars for days 0..14 alternating 50 and 51, whose
RSI is exactly 50 (HOLD territory). -/
def c9Bars : List Bar :=
  mkBars ((List.range 15).map (fun i => if i % 2 = 0 then (50 : ℚ) else 51))

/-- A two-symbol environment: the fetch for "X" raises `DataUnavailableError`
mid-cycle while "Y" succeeds with `c9Bars` and no open position. -/
def envC9 : String → SymEnv := fun s =>
  if s = "X" then { bars := Except.error Err.dataUnavailable, posResult := PosResult.noPosition }
  else { bars := Except.ok c9Bars, posResult := PosResult.noPosition }

/-- Every pass of the order phase submits at most one order. -/
theorem tradeOrderPhase_length_le_one (a : TradeAction) (q : ℤ) (n : ℚ) :
    (tradeOrderPhase a q n).length ≤ 1 := by
  unfold tradeOrderPhase place_sell_all
  split
  · simp
  · split
    · split <;> simp
    · simp

/-- The gains sum is a sum of maxima with 0, hence nonnegative. -/
theorem gainWindowSum_nonneg (closes : List ℚ) (period : Nat) :
    0 ≤ gainWindowSum closes period := by
  unfold gainWindowSum
  apply List.sum_nonneg
  intro x hx
  obtain ⟨d, _, rfl⟩ := List.mem_map.mp (List.mem_of_mem_drop hx)
  exact le_max_right d 0

/-- The controller loop yields exactly one result per watchlist entry. -/
theorem trade_once_model_length (wl : List String) (env : String → SymEnv) (today : Nat) :
    (trade_once_model wl env today).length = wl.length := by
  induction wl with
  | nil => rfl
  | cons a rest ih => simp [trade_once_model, ih]

set_option maxRecDepth 100000

/-- C1: the claim says the RSI input never includes the in-progress bar, and
the module docstring of `trading_engine.py` promises the same ("always uses
the last COMPLETED candle"), but `trade_once` passes the full frame to
`compute_rsi_on_df`, which reads `rsi.iloc[-1]` — the in-progress last bar is
part of the RSI input.  On `dfC1` (last bar dated today = 15) the close fed to
`decide_action` does come from the completed day-14 bar, yet the RSI over the
full frame differs from the RSI over the completed bars, and the engine
decides SELL where the completed data alone would decide BUY. -/
theorem rsi_input_uses_in_progress_bar :
    (dfC1.getLast?).map Bar.t = some 15 ∧
    last_completed_daily_row dfC1 15 = some { t := 14, c := 86 } ∧
    compute_rsi_on_df (dfC1.map Bar.c) RSI_PERIOD ≠
      compute_rsi_on_df ((dfC1.filter (fun b => b.t < 15)).map Bar.c) RSI_PERIOD ∧
    runSymbol { bars := Except.ok dfC1, posResult := PosResult.noPosition } 15
      = CycleOutcome.acted TradeAction.SELL [] ∧
    decide_action 86 (compute_rsi_on_df ((dfC1.filter (fun b => b.t < 15)).map Bar.c) RSI_PERIOD)
      = TradeAction.BUY := by
  with_unfolding_all decide

/-- C2 counterexample: with unchanged in-memory state (`envC2` decides BUY at
position 0), the first pass submits a buy order and running the per-symbol
decision sequence a second time submits a second one; nothing rejects the
second attempt, and no InvariantViolation outcome exists in the code. -/
theorem second_pass_submits_again :
    ordersOf (runSymbol envC2 15) = [Order.buyNotional 100] ∧
    (ordersOf (runSymbol envC2 15) ++ ordersOf (runSymbol envC2 15)).length = 2 := by
  with_unfolding_all decide

/-- C2 amended: within a single execution of the per-symbol decision sequence
at most one order is submitted (the BUY and SELL branches are mutually
exclusive); the code keeps no cycle-scoped consumption token, so a repeated
execution submits again rather than raising an InvariantViolation. -/
theorem at_most_one_order_per_pass (e : SymEnv) (today : Nat) :
    (ordersOf (runSymbol e today)).length ≤ 1 := by
  obtain ⟨bars, pr⟩ := e
  cases bars with
  | error err => simp [runSymbol, symbolStep, ordersOf]
  | ok df =>
    by_cases hd : df.isEmpty
    · simp [runSymbol, symbolStep, hd, ordersOf]
    · cases hr : last_completed_daily_row df today with
      | none => simp [runSymbol, symbolStep, hd, hr, ordersOf]
      | some row =>
        simp [runSymbol, symbolStep, hd, hr, ordersOf]
        exact tradeOrderPhase_length_le_one _ _ _

/-- C3: a series shorter than `period + 1` closes makes `compute_rsi_on_df`
report the RSI as unavailable (`None`), `decide_action` answer SKIP — never
BUY or SELL — and the order phase submit nothing. -/
theorem short_series_skips (closes : List ℚ) (lastClose : ℚ) (q : ℤ)
    (h : closes.length < RSI_PERIOD + 1) :
    compute_rsi_on_df closes RSI_PERIOD = none ∧
    decide_action lastClose (compute_rsi_on_df closes RSI_PERIOD) = TradeAction.SKIP ∧
    tradeOrderPhase (decide_action lastClose (compute_rsi_on_df closes RSI_PERIOD)) q
      TRADE_NOTIONAL_USD = [] := by
  have h1 : compute_rsi_on_df closes RSI_PERIOD = none := by
    unfold compute_rsi_on_df
    exact if_pos h
  refine ⟨h1, ?_, ?_⟩ <;> simp [h1, decide_action, tradeOrderPhase]

/-- C3 witness: ten closes with period 14. -/
theorem short_series_skips_check :
    (List.replicate 10 (50 : ℚ)).length < RSI_PERIOD + 1 ∧
    (compute_rsi_on_df (List.replicate 10 (50 : ℚ)) RSI_PERIOD = none ∧
     decide_action 50 (compute_rsi_on_df (List.replicate 10 (50 : ℚ)) RSI_PERIOD)
       = TradeAction.SKIP ∧
     tradeOrderPhase
       (decide_action 50 (compute_rsi_on_df (List.replicate 10 (50 : ℚ)) RSI_PERIOD)) 0
       TRADE_NOTIONAL_USD = []) :=
  ⟨by decide, short_series_skips (List.replicate 10 50) 50 0 (by decide)⟩

/-- C4 counterexample: at cash 4000 and cap 3800 the sized notional is
submitted (it exceeds 10) and equals the cash-derived bound
`cash * 0.95 = 3800`, yet `cash * 0.95` is not strictly below the cap — the
claim's "equality only when `cash * safetyFraction < maxTradeNotional`"
fails at the boundary. -/
theorem sizing_equality_at_cap_boundary :
    10 < sizedNotional 4000 3800 ∧
    sizedNotional 4000 3800 = 4000 * (95 / 100) ∧
    ¬((4000 : ℚ) * (95 / 100) < 3800) := by
  have hv : sizedNotional 4000 3800 = 3800 := by
    unfold sizedNotional
    rw [min_def]
    norm_num
  refine ⟨?_, ?_, ?_⟩
  · rw [hv]; norm_num
  · rw [hv]; norm_num
  · norm_num

/-- C4 amended: every submitted BUY notional (`notional > 10`) is at most the
configured cap and at most the available cash, and it equals the cash-derived
bound `cash * 0.95` exactly when `cash * 0.95 ≤ maxTradeNotional` (at
equality of the two bounds, both are attained). -/
theorem sized_notional_bounds (cash maxTradeUsd : ℚ)
    (h : 10 < sizedNotional cash maxTradeUsd) :
    sizedNotional cash maxTradeUsd ≤ maxTradeUsd ∧
    sizedNotional cash maxTradeUsd ≤ cash ∧
    (sizedNotional cash maxTradeUsd = cash * (95 / 100) ↔
      cash * (95 / 100) ≤ maxTradeUsd) := by
  refine ⟨min_le_right _ _, ?_, min_eq_left_iff⟩
  have h2 : sizedNotional cash maxTradeUsd ≤ cash * (95 / 100) := min_le_left _ _
  have h3 : (10 : ℚ) < cash * (95 / 100) := lt_of_lt_of_le h h2
  linarith

/-- C4 witness: the spec scenario cash 5000, cap 2000. -/
theorem sized_notional_bounds_check :
    10 < sizedNotional 5000 2000 ∧
    (sizedNotional 5000 2000 ≤ 2000 ∧ sizedNotional 5000 2000 ≤ 5000 ∧
     (sizedNotional 5000 2000 = 5000 * (95 / 100) ↔ (5000 : ℚ) * (95 / 100) ≤ 2000)) :=
  have hv : sizedNotional 5000 2000 = 2000 := by
    unfold sizedNotional
    rw [min_def]
    norm_num
  ⟨by rw [hv]; norm_num, sized_notional_bounds 5000 2000 (by rw [hv]; norm_num)⟩

/-- C5 counterexample: the also-cited classifier
`strategy.generate_signal_from_df` does not return SKIP on an unavailable
RSI.  On a one-row frame — which passes the `df.empty` guard of `main.run` —
its RSI is NaN, both threshold tests are false, and the answer is HOLD, so
the claimed fixed rule order ("if the last RSI value is unavailable it
returns SKIP") fails at this input. -/
theorem nan_rsi_yields_hold_not_skip :
    lastRsiStrategy [(50 : ℚ)] 14 = some FVal.nan ∧
    generate_signal_from_df [(50 : ℚ)] 14 RSI_LOW RSI_HIGH = some TradeAction.HOLD ∧
    TradeAction.HOLD ≠ TradeAction.SKIP :=
  ⟨rfl, rfl, by decide⟩

/-- C5 amended: `trading_engine.decide_action` evaluates the spec's fixed rule
order for every input — unavailable (missing or NaN) RSI → SKIP, else
`≤ lower` → BUY, else `≥ upper` → SELL, else HOLD — while the classifier in
`strategy.py` evaluates only the two threshold rules in that order and has no
unavailable rule: it never returns SKIP for any input or thresholds, and on a
one-row frame, where its RSI is NaN (unavailable), it returns HOLD. -/
theorem classifier_rule_order (lastClose : ℚ) (r : Option FVal) (closes : List ℚ)
    (c : ℚ) (n : Nat) (lower upper : ℚ) :
    decide_action lastClose r = classifySpec r RSI_LOW RSI_HIGH ∧
    generate_signal_from_df closes n lower upper ≠ some TradeAction.SKIP ∧
    generate_signal_from_df [c] n lower upper = some TradeAction.HOLD := by
  refine ⟨by cases r <;> rfl, ?_, rfl⟩
  unfold generate_signal_from_df
  cases lastRsiStrategy closes n with
  | none => simp
  | some v =>
      dsimp only
      split_ifs <;> simp

/-- C6 counterexample: a transport/auth failure of the broker query is mapped
to quantity 0 by the bare `except Exception` handler — identically to the
no-open-position response — instead of propagating as a distinct error. -/
theorem transport_error_maps_to_zero :
    get_position_qty PosResult.transportError = 0 ∧
    get_position_qty PosResult.noPosition = 0 := by
  decide

/-- C6 amended: the position query maps the no-open-position response to 0 and
also maps every transport/auth error to 0; no error propagates out of
`get_position_qty`. -/
theorem position_qty_total_map :
    (∀ q : ℤ, get_position_qty (PosResult.openPos q) = q) ∧
    get_position_qty PosResult.noPosition = 0 ∧
    get_position_qty PosResult.transportError = 0 :=
  ⟨fun _ => rfl, rfl, rfl⟩

/-- C7: the order phase of `trade_once` creates a BUY order only when the
current position quantity is exactly 0, and any SELL order it creates
liquidates exactly the whole current quantity. -/
theorem order_creation_respects_position (a : TradeAction) (q : ℤ) (n : ℚ) :
    tradeOrderPhase a q n = [] ∨
    (q = 0 ∧ tradeOrderPhase a q n = [Order.buyNotional n]) ∨
    (0 < q ∧ tradeOrderPhase a q n = [Order.sellQty q]) := by
  unfold tradeOrderPhase
  split
  · next h => exact Or.inr (Or.inl ⟨h.2, rfl⟩)
  · split
    · next h h2 =>
        refine Or.inr (Or.inr ⟨h2.2, ?_⟩)
        unfold place_sell_all
        rw [if_neg (not_le.mpr h2.2)]
        rfl
    · exact Or.inl rfl

/-- C8 counterexample: on a constant series (average loss 0 and average gain
0) the unguarded division in `trading_engine.rsi` yields `0/0 = NaN`, so the
RSI is NaN, not 100 — the claim's "never returns NaN" fails. -/
theorem constant_series_rsi_nan :
    compute_rsi_on_df (List.replicate 15 (50 : ℚ)) RSI_PERIOD = some FVal.nan ∧
    FVal.nan ≠ FVal.num 100 := by
  with_unfolding_all decide

/-- C8 amended: when the average loss over the lookback is 0, the RSI is 100
whenever the average gain is positive (the unguarded division produces `+inf`,
which the formula maps to exactly 100), but is NaN when the average gain is
also 0; the division is not guarded, the NaN being absorbed only downstream by
`decide_action` as SKIP. -/
theorem zero_loss_rsi_saturation (closes : List ℚ)
    (hlen : RSI_PERIOD + 1 ≤ closes.length)
    (hloss : lossWindowSum closes RSI_PERIOD = 0) :
    compute_rsi_on_df closes RSI_PERIOD =
      some (if gainWindowSum closes RSI_PERIOD = 0 then FVal.nan else FVal.num 100) := by
  unfold compute_rsi_on_df
  rw [if_neg (by omega)]
  unfold lastRsiTE
  rw [hloss]
  by_cases hg : gainWindowSum closes RSI_PERIOD = 0
  · rw [if_pos hg, hg]
    simp [FVal.div, FVal.add, FVal.sub, zero_div]
  · have hgpos : 0 < gainWindowSum closes RSI_PERIOD :=
      lt_of_le_of_ne (gainWindowSum_nonneg _ _) (Ne.symm hg)
    have hq : 0 < gainWindowSum closes RSI_PERIOD / (RSI_PERIOD : ℚ) := by
      apply div_pos hgpos
      norm_num [RSI_PERIOD]
    rw [if_neg hg]
    simp [FVal.div, FVal.add, FVal.sub, zero_div, hq, ne_of_gt hq]

/-- C8 witness: fifteen strictly increasing closes — zero losses, positive
gains — give RSI exactly 100. -/
theorem zero_loss_rsi_saturation_check :
    RSI_PERIOD + 1 ≤ c8Closes.length ∧
    lossWindowSum c8Closes RSI_PERIOD = 0 ∧
    compute_rsi_on_df c8Closes RSI_PERIOD =
      some (if gainWindowSum c8Closes RSI_PERIOD = 0 then FVal.nan else FVal.num 100) :=
  ⟨by decide, by with_unfolding_all decide,
   zero_loss_rsi_saturation c8Closes (by decide) (by with_unfolding_all decide)⟩

/-- C9: the `trade_once` watchlist loop records one outcome per symbol and an
error while processing one symbol never aborts the rest: every symbol of the
watchlist contributes its own independently computed outcome. -/
theorem cycle_processes_every_symbol (wl : List String) (env : String → SymEnv)
    (today : Nat) (s : String) (hs : s ∈ wl) :
    (trade_once_model wl env today).length = wl.length ∧
    (s, runSymbol (env s) today) ∈ trade_once_model wl env today := by
  refine ⟨trade_once_model_length wl env today, ?_⟩
  induction wl with
  | nil => cases hs
  | cons a rest ih =>
    rcases List.mem_cons.mp hs with h | h
    · subst h
      exact List.mem_cons_self _ _
    · exact List.mem_cons_of_mem _ (ih h)

/-- C9 witness: the spec scenario — the fetch for "X" raises
`DataUnavailableError` mid-cycle while "Y" succeeds; the cycle still contains
an error entry for "X" and a normal HOLD decision for "Y". -/
theorem cycle_processes_every_symbol_check :
    (trade_once_model ["X", "Y"] envC9 15).length = 2 ∧
    ("X", runSymbol (envC9 "X") 15) ∈ trade_once_model ["X", "Y"] envC9 15 ∧
    runSymbol (envC9 "X") 15 = CycleOutcome.errorRecorded Err.dataUnavailable ∧
    ("Y", runSymbol (envC9 "Y") 15) ∈ trade_once_model ["X", "Y"] envC9 15 ∧
    runSymbol (envC9 "Y") 15 = CycleOutcome.acted TradeAction.HOLD [] :=
  ⟨(cycle_processes_every_symbol ["X", "Y"] envC9 15 "X" (by decide)).1,
   (cycle_processes_every_symbol ["X", "Y"] envC9 15 "X" (by decide)).2,
   by with_unfolding_all decide,
   (cycle_processes_every_symbol ["X", "Y"] envC9 15 "Y" (by decide)).2,
   by with_unfolding_all decide⟩

/-- C10: `hit_stop_or_takeprofit` returns `False` whenever the entry price is
nonpositive, for every last price — a position with a missing or nonpositive
recorded entry price can never trigger a protective exit. -/
theorem nonpositive_entry_never_exits (entry_price last_price : ℚ)
    (h : entry_price ≤ 0) :
    hit_stop_or_takeprofit entry_price last_price = false := by
  unfold hit_stop_or_takeprofit
  exact if_pos h

/-- C10 witness: entry price 0 (the value `main.run` uses when no position is
held), last price 50. -/
theorem nonpositive_entry_never_exits_check :
    (0 : ℚ) ≤ 0 ∧ hit_stop_or_takeprofit 0 50 = false :=
  ⟨le_refl 0, nonpositive_entry_never_exits 0 50 (le_refl 0)⟩
